import Mathlib

/-!
Verification development for the dsst-defacing-pipeline orchestrator
(`deface.py`, `register.py`, `dsst_defacing_wf.py`).

The code is shallowly embedded: filesystem paths are strings, Python's
`pathlib` joins and `str.split` are modelled by structural string helpers,
external side effects (directory creation, shell commands, renames) are
recorded in an explicit event trace, and filesystem observations made by the
code (globbing, existence checks) are supplied by an oracle.  Logging calls
and `print` statements are elided; they carry no control flow.
-/

namespace DsstDefacing

/-- Split a character list at every occurrence of `c` (Python `str.split(c)`
for a one-character separator: `"".split(c) == ['']`). -/
def splitCharAux (c : Char) : List Char → List (List Char)
  | [] => [[]]
  | x :: xs =>
    match splitCharAux c xs with
    | [] => if x = c then [[], []] else [[x]]
    | y :: ys => if x = c then [] :: y :: ys else (x :: y) :: ys

/-- Python `s.split(c)` for a single-character separator `c`. -/
def splitOnChar (c : Char) (s : String) : List String :=
  (splitCharAux c s.data).map (fun l => String.mk l)

/-- Python `s.startswith(p)`. -/
def strStarts (s p : String) : Bool := p.data.isPrefixOf s.data

/-- Python `s.endswith(p)`. -/
def strEnds (s p : String) : Bool := p.data.isSuffixOf s.data

/-- Python `sep.join(parts)`. -/
def joinSep (sep : String) : List String → String
  | [] => ""
  | [x] => x
  | x :: y :: ys => x ++ sep ++ joinSep sep (y :: ys)

/-- Pathlib path join for one component: empty components are dropped by
`PurePath`, so `Path(a) / '' == Path(a)`. -/
def pjoin (a b : String) : String := if b = "" then a else a ++ "/" ++ b

/-- Python `Path(p).name`: the last slash-delimited component. -/
def baseName (p : String) : String := (splitOnChar '/' p).getLastD ""

/-- Python `Path(p).parent` for the slash-joined paths this pipeline builds. -/
def dirName (p : String) : String := joinSep "/" (splitOnChar '/' p).dropLast

/-- Python f-string interpolation of an `Optional[str]`: `f"{None}"` is the
four-character string `None`. -/
def pyStr : Option String → String
  | none => "None"
  | some s => s

/-- Observable side effects of the pipeline, in program order. -/
inductive Event where
  /-- `Path.mkdir(parents=True, exist_ok=True)` on a directory. -/
  | mkdir (path : String)
  /-- `utils.run_command` / `register.run_command` on a shell command line. -/
  | runCmd (cmd : String)
  /-- `Path.rename`. -/
  | renamed (src dst : String)
  /-- The call `register.register_to_primary_scan(_, workdir, primary, others, _)`. -/
  | registerInvoke (workdir primary : String) (others : List String)
  /-- The call `reorganize_into_bids(_, _, _, _, bids_defaced_outdir, _, _)`. -/
  | reorganize (outputDir : String)
  deriving Repr, DecidableEq

/-- Read-only filesystem observations the code makes while running. -/
structure FSOracle where
  /-- Names returned by `subj_output_dir.glob('*work_refacer*')`. -/
  globWorkRefacer : String → List String
  /-- Names returned by `dir.glob('*')`. -/
  listNames : String → List String
  /-- `Path(p).exists()`. -/
  fileExists : String → Bool

/-! ## register.py -/

/-- Embedding of `register.get_intermediate_filenames(outdir, prefix)`. -/
def get_intermediate_filenames (outdir pfx : String) :
    String × String × String × String :=
  (pjoin outdir pfx ++ "_reg.mat",
   pjoin outdir pfx ++ "_registered.nii.gz",
   pjoin outdir pfx ++ "_mask.nii.gz",
   pjoin outdir pfx ++ "_defaced.nii.gz")

/-- Embedding of `register.preprocess_facemask(fmask_path, _)`: runs the `fslroi`/`fslmaths`
pair and returns the defacemask path when that file exists afterwards.  When
the file does not exist the Python function falls off the `try` block and
returns `None` (the `except OSError` handler only guards the `.exists()` call
itself), so the result is modelled as an `Option` with no error channel. -/
def preprocess_facemask (fs : FSOracle) (fmask_path : String) :
    List Event × Option String :=
  let parent := dirName fmask_path
  let pfx := pjoin parent "afni_facemask"
  let defacemask := pjoin parent "afni_defacemask.nii.gz"
  let c1 := "fslroi " ++ fmask_path ++ " " ++ pfx ++ " 1 1"
  let c2 := "fslmaths " ++ pfx ++ ".nii.gz -abs -binv " ++ defacemask
  ([Event.runCmd (c1 ++ "; " ++ c2)],
   if fs.fileExists defacemask then some defacemask else none)

/-- The full path of a secondary scan as resolved by the loop of
`register.register_to_primary_scan`:
`subj_dir.joinpath(other.split('_')[1], 'anat', other)`. -/
def other_full_path (subj_dir other : String) : String :=
  pjoin (pjoin (pjoin subj_dir ((splitOnChar '_' other).getD 1 "")) "anat") other

/-- Python `other.name.split('.')[0]` for the resolved secondary-scan path. -/
def other_pfx_of (subj_dir other : String) : String :=
  (splitOnChar '.' (baseName (other_full_path subj_dir other))).headD ""

/-- Body of the `for other in other_scans_list` loop of
`register.register_to_primary_scan`: one secondary scan. `t1_mask_str` is the
f-string rendering of the `preprocess_facemask` result. -/
def register_other (subj_dir afni_workdir primary_scan t1_mask_str other : String) :
    List Event :=
  let otherPath := other_full_path subj_dir other
  let other_pfx := other_pfx_of subj_dir other
  let other_outdir := pjoin afni_workdir other_pfx
  let ids := get_intermediate_filenames other_outdir other_pfx
  let matrix := ids.1
  let reg_out := ids.2.1
  let other_mask := ids.2.2.1
  let other_defaced := ids.2.2.2
  let cp_cmd := "cp " ++ otherPath ++ " " ++ pjoin other_outdir other_pfx
  let flirt_cmd := "flirt -dof 6 -cost mutualinfo -searchcost mutualinfo -in "
      ++ primary_scan ++ " -ref " ++ otherPath ++ " -omat " ++ matrix
      ++ " -out " ++ reg_out
  let applyxfm_cmd := "flirt -interp nearestneighbour -applyxfm -init " ++ matrix
      ++ " -in " ++ t1_mask_str ++ " -ref " ++ otherPath ++ " -out " ++ other_mask
  let mask_cmd := "fslmaths " ++ otherPath ++ " -mas " ++ other_mask
      ++ " " ++ other_defaced
  let full_cmd := joinSep " ; " [cp_cmd, flirt_cmd, applyxfm_cmd, mask_cmd] ++ "\n"
  [Event.mkdir other_outdir, Event.runCmd full_cmd]

/-- Embedding of `register.register_to_primary_scan(subj_dir, afni_workdir, primary_scan,
other_scans_list, _)`. -/
def register_to_primary_scan (fs : FSOracle)
    (subj_dir afni_workdir primary_scan : String)
    (other_scans_list : List String) : List Event :=
  let raw_facemask := pjoin afni_workdir "tmp.05.sh_t2a_thr.nii"
  let pre := preprocess_facemask fs raw_facemask
  pre.1 ++ (other_scans_list.map
    (register_other subj_dir afni_workdir primary_scan (pyStr pre.2))).flatten

/-! ## deface.py -/

/-- The sibling names kept by `deface.rename_afni_workdir`'s list
comprehension: `f.name.startswith('__work') or f.name.endswith(('QC',
'defacing_pipeline.log'))`.  Everything else goes into the `rm -rf`. -/
def keep_sibling (f : String) : Bool :=
  strStarts f "__work" || strEnds f "QC" || strEnds f "defacing_pipeline.log"

/-- The `to_be_deleted_files` list of `deface.rename_afni_workdir`, as names relative
to the workdir's parent. -/
def to_be_deleted_files (names : List String) : List String :=
  names.filter (fun f => !(keep_sibling f))

/-- Embedding of `deface.rename_afni_workdir(workdir_path, _)` where `workdir_path =
parent / wname`: removes unwanted siblings, renames the workdir to
`workdir_<second dot-delimited segment of wname>`, returns the new path. -/
def rename_afni_workdir (fs : FSOracle) (parent wname : String) :
    List Event × String :=
  let default_pfx := (splitOnChar '.' wname).getD 1 ""
  let deleted := (to_be_deleted_files (fs.listNames parent)).map (pjoin parent)
  let new_workdir := pjoin parent ("workdir_" ++ default_pfx)
  ([Event.runCmd ("rm -rf " ++ joinSep " " deleted),
    Event.renamed (pjoin parent wname) new_workdir],
   new_workdir)

/-- The `acq` variable after the `for i in entities` loop of
`deface.run_afni_refacer`: each iteration assigns `acq` unconditionally, so
only the last entity decides the result. -/
def compute_acq (entities : List String) : String :=
  entities.foldl
    (fun _ i => if strStarts i "acq-" then (splitOnChar '-' i).getD 1 "" else "")
    ""

/-- The acquisition label as the spec describes it (a second definition for
comparison, following the spec's words): the part after `acq-` in the
underscore-delimited token that starts with `acq-`, empty when absent. -/
def acq_label_spec (entities : List String) : String :=
  match entities.find? (fun i => strStarts i "acq-") with
  | some i => (splitOnChar '-' i).getD 1 ""
  | none => ""

/-- The `subj_output_dir` of `deface.run_afni_refacer`:
`output_dir / subj_id / sess_id / 'anat' / acq`. -/
def refacer_outdir (subj_input_dir sess_id output_dir primary : String) : String :=
  pjoin (pjoin (pjoin (pjoin output_dir (baseName subj_input_dir)) sess_id) "anat")
    (compute_acq (splitOnChar '_' (baseName primary)))

/-- Embedding of `deface.run_afni_refacer(primary_t1, others, subj_input_dir, sess_id,
output_dir, mode, _)`.  The Python `for primary in all_primaries` loop ends
with `return missing_refacer_out` inside its body, so at most the first
element of `all_primaries` is ever processed; with an empty `all_primaries`
the function falls through and returns `None` (modelled as `none`).  The
refacer command interpolates the function argument `primary_t1`, not the loop
variable. -/
def run_afni_refacer (fs : FSOracle) (primary_t1 : Option String)
    (others : List String) (subj_input_dir sess_id output_dir mode : String) :
    List Event × Option String :=
  let lists := match primary_t1 with
    | some p => ([p], others)
    | none => (others, ([] : List String))
  let all_others := lists.2
  match lists.1 with
  | [] => ([], none)
  | primary :: _ =>
    let pname := baseName primary
    let subj_output_dir := refacer_outdir subj_input_dir sess_id output_dir primary
    let pfx := (splitOnChar '.' pname).headD ""
    let cmd0 := "@afni_refacer_run -input " ++ pyStr primary_t1
        ++ " -mode_deface -no_clean -prefix " ++ pjoin subj_output_dir pfx
    let refacer_cmd :=
      if mode = "aggressive" then cmd0 ++ " -shell afni_refacer_shell_sym_2.0.nii.gz"
      else cmd0
    let head := [Event.mkdir subj_output_dir, Event.runCmd refacer_cmd]
    match fs.globWorkRefacer subj_output_dir with
    | [] => (head, some pfx)
    | w :: _ =>
      let ren := rename_afni_workdir fs subj_output_dir w
      (head ++ ren.1
        ++ [Event.registerInvoke ren.2 primary all_others]
        ++ register_to_primary_scan fs subj_input_dir ren.2 primary all_others,
       some "")

/-- A `{primary_t1, others}` value of the mapping dictionary. -/
structure UnitMap where
  primary_t1 : Option String
  others : List String
  deriving Repr, DecidableEq

/-- The `others` list computed by `deface.deface_primary_scan`:
`[str(s) for s in mapping[...]['others'] if s != primary_t1]`. -/
def filtered_others (primary_t1 : Option String) (others : List String) :
    List String :=
  others.filter (fun s => !(decide (primary_t1 = some s)))

/-- Embedding of `deface.deface_primary_scan(input_bids_dir, subj_input_dir, sess_dir,
mapping_dict, output_dir, mode, no_clean, nih_hpc)`.  The mapping access
(`mapping_dict[subj_id]` or `mapping_dict[subj_id][sess_id]`) is supplied as
`mapLookup` from the session id; logger setup and the `nih_hpc` module-load
command are elided.  The final `reorganize_into_bids` call is unconditional
and is recorded as an event; the return value is the singleton list
`[run_afni_refacer(...)]`. -/
def deface_primary_scan (fs : FSOracle) (subj_input_dir sess_dir : String)
    (mapLookup : String → UnitMap) (output_dir mode : String) :
    List Event × List (Option String) :=
  let sess_id := if sess_dir = "" then "" else baseName sess_dir
  let u := mapLookup sess_id
  let others := filtered_others u.primary_t1 u.others
  let r := run_afni_refacer fs u.primary_t1 others subj_input_dir sess_id
      output_dir mode
  (r.1 ++ [Event.reorganize output_dir], [r.2])

/-! ## dsst_defacing_wf.py -/

/-- One subject's value in the mapping dictionary: either a session-less
`{primary_t1, others}` dictionary or a dictionary keyed by session id. -/
inductive MappingEntry where
  | unitEntry (u : UnitMap)
  | sessions (ss : List (String × UnitMap))
  deriving Repr, DecidableEq

/-- The dictionary accesses of `deface.deface_primary_scan`
(`mapping_dict[subj_id]['primary_t1']` when `sess_id` is empty,
`mapping_dict[subj_id][sess_id][...]` otherwise), as a lookup from the
session id.  A shape mismatch raises `KeyError` in Python; it is modelled by
an empty unit and never reached in the theorems below. -/
def entryLookup : MappingEntry → String → UnitMap
  | .unitEntry u, sid => if sid = "" then u else ⟨none, []⟩
  | .sessions ss, sid =>
      if sid = "" then ⟨none, []⟩
      else ((ss.find? (fun p => decide (p.1 = sid))).map Prod.snd).getD ⟨none, []⟩

/-- Embedding of `dsst_defacing_wf.get_sess_dirs(subj_dir_path, mapping_dict)`: one list
entry per key of `mapping_dict[subj_dir_path.name]` — `subj_dir / key` when
the key starts with `ses-`, the empty string otherwise.  A session-less
subject's dictionary has the two keys `primary_t1` and `others`. -/
def get_sess_dirs (subj_dir : String) (entry : MappingEntry) : List String :=
  let keys := match entry with
    | .unitEntry _ => ["primary_t1", "others"]
    | .sessions ss => ss.map Prod.fst
  keys.map (fun key => if strStarts key "ses-" then pjoin subj_dir key else "")

/-- The `subj_sess_list` computed by `dsst_defacing_wf.main` in its three
cases (`subjNames` stands for the names found by `input_dir.glob('sub-*')`).
The `(none, some _)` case is rejected by `get_args` before `main`'s loop. -/
def resolveUnits (input_dir : String) (subjNames : List String)
    (mapping : String → MappingEntry) :
    Option String → Option String → List (String × String)
  | some sid, none =>
      let subj_dir := pjoin input_dir sid
      (get_sess_dirs subj_dir (mapping sid)).map (fun sd => (subj_dir, sd))
  | some sid, some ses =>
      [(pjoin input_dir sid, pjoin (pjoin input_dir sid) ses)]
  | none, _ =>
      ((subjNames.map (pjoin input_dir)).map (fun sd =>
        (get_sess_dirs sd (mapping (baseName sd))).map (fun s => (sd, s)))).flatten

/-- The `afni_refacer_failures` list of `dsst_defacing_wf.main`: the loop
extends it with every `deface_primary_scan` return value (the `is not None`
guard compares the returned list, never `None`, so it filters nothing). -/
def mainFailures (fs : FSOracle) (input_dir output_dir : String)
    (subjNames : List String) (mapping : String → MappingEntry)
    (subj_id sess_id : Option String) (mode : String) : List (Option String) :=
  let bids_defaced_outdir := pjoin output_dir "bids_defaced"
  ((resolveUnits input_dir subjNames mapping subj_id sess_id).map (fun u =>
    (deface_primary_scan fs u.1 u.2 (entryLookup (mapping (baseName u.1)))
      bids_defaced_outdir mode).2)).flatten

/-- Python `'\x5cn'.join(failures)`: defined when every element is a string,
`none` models the `TypeError` raised on a `None` element. -/
def joinFailures (l : List (Option String)) : Option String :=
  if l.all Option.isSome then some (joinSep "\n" (l.map (fun o => o.getD "")))
  else none

/-- The content written to `failed_afni_refacer_output.txt` by
`dsst_defacing_wf.main`. -/
def mainReport (fs : FSOracle) (input_dir output_dir : String)
    (subjNames : List String) (mapping : String → MappingEntry)
    (subj_id sess_id : Option String) (mode : String) : Option String :=
  joinFailures (mainFailures fs input_dir output_dir subjNames mapping
    subj_id sess_id mode)

/-! ## compress_to_gz over a file-content map -/

/-- Embedding of `deface.compress_to_gz(input_file, output_file)` over a filesystem
modelled as a map from path to byte content, with gzip compression abstracted
as `gz`.  When the destination exists the function does nothing; otherwise it
reads the input (`none` models the `FileNotFoundError` of `open`) and writes
the compressed bytes to the destination. -/
def compress_to_gz (gz : List Nat → List Nat)
    (fsm : String → Option (List Nat)) (input_file output_file : String) :
    Option (String → Option (List Nat)) :=
  match fsm output_file with
  | some _ => some fsm
  | none =>
    match fsm input_file with
    | some content =>
        some (fun p => if p = output_file then some (gz content) else fsm p)
    | none => none

/-! ## Trace observations -/

/-- Number of external defacing-tool invocations recorded in a trace. -/
def refacerCmdCount (evs : List Event) : Nat :=
  (evs.filter (fun e => match e with
    | .runCmd c => strStarts c "@afni_refacer_run"
    | _ => false)).length

/-- Number of directory creations recorded in a trace. -/
def mkdirCount (evs : List Event) : Nat :=
  (evs.filter (fun e => match e with | .mkdir _ => true | _ => false)).length

/-- Number of external commands recorded in a trace. -/
def runCmdCount (evs : List Event) : Nat :=
  (evs.filter (fun e => match e with | .runCmd _ => true | _ => false)).length

/-! ## Theorems for the claims -/

/-- Claim C1: the spec says that with no primary every secondary is processed
as its own primary (one defacing invocation and one acquisition subdirectory
each, two of each for a two-secondary unit).  The `for primary in
all_primaries` loop of `run_afni_refacer` ends with `return` inside its body,
so only the first promoted secondary is processed: at a unit with primary
unset and two secondaries the code performs exactly one refacer invocation
and one directory creation and returns the first scan's prefix. -/
theorem claim1_only_first_promoted_secondary_processed :
    refacerCmdCount (run_afni_refacer ⟨fun _ => [], fun _ => [], fun _ => false⟩
      none ["sub-02_ses-1_run-01_T2w.nii", "sub-02_ses-1_run-02_T2w.nii"]
      "in/sub-02" "ses-1" "out" "normal").1 = 1 ∧
    mkdirCount (run_afni_refacer ⟨fun _ => [], fun _ => [], fun _ => false⟩
      none ["sub-02_ses-1_run-01_T2w.nii", "sub-02_ses-1_run-02_T2w.nii"]
      "in/sub-02" "ses-1" "out" "normal").1 = 1 ∧
    (run_afni_refacer ⟨fun _ => [], fun _ => [], fun _ => false⟩
      none ["sub-02_ses-1_run-01_T2w.nii", "sub-02_ses-1_run-02_T2w.nii"]
      "in/sub-02" "ses-1" "out" "normal").2 = some "sub-02_ses-1_run-01_T2w" := by
  decide

set_option maxRecDepth 40000 in
/-- Claim C2: the spec says a missing face-mask file is re-raised as an
unrecoverable error and no per-secondary registration proceeds.  In the code,
`preprocess_facemask` only re-raises an `OSError` thrown by the `.exists()`
call itself; when the mask file simply does not exist the function returns
`None` and `register_to_primary_scan` proceeds, creating the per-scan
subdirectory and issuing the combined registration command with `-in None`
interpolated for the mask. -/
theorem claim2_registration_proceeds_without_mask :
    (preprocess_facemask ⟨fun _ => [], fun _ => [], fun _ => false⟩
      "wkd/tmp.05.sh_t2a_thr.nii").2 = none ∧
    Event.mkdir "wkd/sub-01_ses-1_T2w" ∈
      register_to_primary_scan ⟨fun _ => [], fun _ => [], fun _ => false⟩
        "bids/sub-01" "wkd" "prim.nii" ["sub-01_ses-1_T2w.nii"] ∧
    Event.runCmd
      ("cp bids/sub-01/ses-1/anat/sub-01_ses-1_T2w.nii wkd/sub-01_ses-1_T2w/sub-01_ses-1_T2w"
        ++ " ; flirt -dof 6 -cost mutualinfo -searchcost mutualinfo -in prim.nii"
        ++ " -ref bids/sub-01/ses-1/anat/sub-01_ses-1_T2w.nii"
        ++ " -omat wkd/sub-01_ses-1_T2w/sub-01_ses-1_T2w_reg.mat"
        ++ " -out wkd/sub-01_ses-1_T2w/sub-01_ses-1_T2w_registered.nii.gz"
        ++ " ; flirt -interp nearestneighbour -applyxfm"
        ++ " -init wkd/sub-01_ses-1_T2w/sub-01_ses-1_T2w_reg.mat -in None"
        ++ " -ref bids/sub-01/ses-1/anat/sub-01_ses-1_T2w.nii"
        ++ " -out wkd/sub-01_ses-1_T2w/sub-01_ses-1_T2w_mask.nii.gz"
        ++ " ; fslmaths bids/sub-01/ses-1/anat/sub-01_ses-1_T2w.nii"
        ++ " -mas wkd/sub-01_ses-1_T2w/sub-01_ses-1_T2w_mask.nii.gz"
        ++ " wkd/sub-01_ses-1_T2w/sub-01_ses-1_T2w_defaced.nii.gz\n") ∈
      register_to_primary_scan ⟨fun _ => [], fun _ => [], fun _ => false⟩
        "bids/sub-01" "wkd" "prim.nii" ["sub-01_ses-1_T2w.nii"] := by
  decide

set_option maxRecDepth 40000 in
/-- Claim C5: the spec says the refacer command carries the processed primary
as `-input`.  The code interpolates the function argument `primary_t1`, not
the loop variable `primary`: when a secondary is promoted (primary unset) the
command reads `-input None`.  With a set primary the command is as the claim
describes, including `-mode_deface -no_clean`, the `-prefix` into the output
subdirectory and the aggressive-mode `-shell` template. -/
theorem claim5_input_flag_interpolates_primary_t1 :
    (run_afni_refacer ⟨fun _ => [], fun _ => [], fun _ => false⟩
      none ["sub-02_ses-1_T2w.nii"] "in/sub-02" "ses-1" "out" "normal").1 =
      [Event.mkdir "out/sub-02/ses-1/anat",
       Event.runCmd ("@afni_refacer_run -input None -mode_deface -no_clean"
         ++ " -prefix out/sub-02/ses-1/anat/sub-02_ses-1_T2w")] ∧
    (run_afni_refacer ⟨fun _ => [], fun _ => [], fun _ => false⟩
      (some "in/sub-01/anat/sub-01_T1w.nii") ["sub-01_T2w.nii"]
      "in/sub-01" "" "out" "aggressive").1 =
      [Event.mkdir "out/sub-01/anat",
       Event.runCmd ("@afni_refacer_run -input in/sub-01/anat/sub-01_T1w.nii"
         ++ " -mode_deface -no_clean -prefix out/sub-01/anat/sub-01_T1w"
         ++ " -shell afni_refacer_shell_sym_2.0.nii.gz")] := by
  decide

/-- Claim C6: the spec says the acquisition label equals the value after
`acq-` in the matching underscore token (empty when absent).  The `for i in
entities` loop assigns `acq` on every iteration, so any entity after the
`acq-` token resets it to the empty string: on
`sub-01_acq-highres_T1w.nii.gz` the code yields `""` while the acquisition
entity value is `highres`; only when the `acq-` token is last does the code
yield the entity value. -/
theorem claim6_acq_label_reset_by_later_entities :
    compute_acq (splitOnChar '_' "sub-01_acq-highres_T1w.nii.gz") = "" ∧
    acq_label_spec (splitOnChar '_' "sub-01_acq-highres_T1w.nii.gz") = "highres" ∧
    compute_acq ["sub-01", "acq-highres"] = "highres" := by
  decide

set_option maxRecDepth 100000 in
/-- Claim C4: the spec says the driver writes a newline-delimited list of
exactly the scan prefixes that failed defacing.  Two slips intervene: a
session-less subject's mapping entry has the two keys `primary_t1`/`others`,
so `get_sess_dirs` yields two units for it and the subject is processed
twice; and `deface_primary_scan` returns `""` for a successful primary while
`main`'s `is not None` guard tests the returned list (never `None`), so every
successful unit contributes an empty report entry.  For one session-less
subject: a successful run writes `"\x5cn"` (two empty entries) instead of an
empty report, a failing run lists the failed prefix twice, and the subject
resolves to two units. -/
theorem claim4_report_has_spurious_entries :
    mainReport ⟨fun _ => ["__work_refacer.ab.123"], fun _ => [], fun _ => false⟩
      "in" "out" ["sub-01"]
      (fun _ => .unitEntry ⟨some "sub-01_T1w.nii", []⟩) none none "normal"
      = some "\n" ∧
    mainReport ⟨fun _ => [], fun _ => [], fun _ => false⟩
      "in" "out" ["sub-01"]
      (fun _ => .unitEntry ⟨some "sub-01_T1w.nii", []⟩) none none "normal"
      = some "sub-01_T1w\nsub-01_T1w" ∧
    (resolveUnits "in" ["sub-01"]
      (fun _ => .unitEntry ⟨some "sub-01_T1w.nii", []⟩) none none).length = 2 := by
  decide

/-- Claim C9: the compression step is guarded by a destination-existence
check, so a second invocation on the same destination performs no write and
returns the filesystem unchanged. -/
theorem claim9_compress_idempotent (gz : List Nat → List Nat)
    (fsm fsm1 : String → Option (List Nat)) (input_file output_file : String)
    (h : compress_to_gz gz fsm input_file output_file = some fsm1) :
    compress_to_gz gz fsm1 input_file output_file = some fsm1 := by
  unfold compress_to_gz at h ⊢
  cases ho : fsm output_file with
  | some v =>
      rw [ho] at h
      cases h
      rw [ho]
  | none =>
      rw [ho] at h
      cases hi : fsm input_file with
      | some content =>
          rw [hi] at h
          cases h
          simp
      | none =>
          rw [hi] at h
          cases h

/-- Witness for claim C9 at a concrete filesystem whose destination file
already holds the result of a first invocation. -/
theorem claim9_compress_idempotent_witness :
    compress_to_gz (fun l => 0 :: l)
      (fun p => if p = "out" then some [0, 1, 2]
        else if p = "in" then some [1, 2] else none) "in" "out"
    = some (fun p => if p = "out" then some [0, 1, 2]
        else if p = "in" then some [1, 2] else none) :=
  claim9_compress_idempotent (fun l => 0 :: l)
    (fun p => if p = "out" then some [0, 1, 2]
      else if p = "in" then some [1, 2] else none)
    (fun p => if p = "out" then some [0, 1, 2]
      else if p = "in" then some [1, 2] else none)
    "in" "out" rfl

/-- When the glob for `*work_refacer*` finds nothing, `run_afni_refacer`
emits no registration call. -/
theorem run_no_invoke_of_no_workdir (fs : FSOracle) (primary_t1 : Option String)
    (others : List String) (sdir sid odir mode : String)
    (h : ∀ d, fs.globWorkRefacer d = []) (w p : String) (os : List String) :
    Event.registerInvoke w p os ∉
      (run_afni_refacer fs primary_t1 others sdir sid odir mode).1 := by
  cases primary_t1 with
  | some pp => simp [run_afni_refacer, h]
  | none =>
      cases others with
      | nil => simp [run_afni_refacer]
      | cons o os' => simp [run_afni_refacer, h]

/-- Claim C3: when the primary's defacing produced no working directory (the
glob finds nothing), no registration is invoked for any secondary of the
unit, while the BIDS reorganization step still runs for the unit's output
directory. -/
theorem claim3_register_gated_reorganize_unconditional (fs : FSOracle)
    (subj_input_dir sess_dir : String) (mapLookup : String → UnitMap)
    (output_dir mode : String)
    (h : ∀ d, fs.globWorkRefacer d = []) :
    (∀ w p os, Event.registerInvoke w p os ∉
      (deface_primary_scan fs subj_input_dir sess_dir mapLookup
        output_dir mode).1) ∧
    Event.reorganize output_dir ∈
      (deface_primary_scan fs subj_input_dir sess_dir mapLookup
        output_dir mode).1 := by
  constructor
  · intro w p os hmem
    simp only [deface_primary_scan, List.mem_append] at hmem
    rcases hmem with hmem | hmem
    · exact run_no_invoke_of_no_workdir fs _ _ _ _ _ _ h w p os hmem
    · simp at hmem
  · simp [deface_primary_scan]

/-- Witness for claim C3 at a concrete unit whose oracle reports no working
directory anywhere. -/
theorem claim3_witness :
    (∀ w p os, Event.registerInvoke w p os ∉
      (deface_primary_scan ⟨fun _ => [], fun _ => [], fun _ => false⟩
        "in/sub-01" "" (fun _ => ⟨some "sub-01_T1w.nii", ["sub-01_T2w.nii"]⟩)
        "out" "normal").1) ∧
    Event.reorganize "out" ∈
      (deface_primary_scan ⟨fun _ => [], fun _ => [], fun _ => false⟩
        "in/sub-01" "" (fun _ => ⟨some "sub-01_T1w.nii", ["sub-01_T2w.nii"]⟩)
        "out" "normal").1 :=
  claim3_register_gated_reorganize_unconditional
    ⟨fun _ => [], fun _ => [], fun _ => false⟩ "in/sub-01" ""
    (fun _ => ⟨some "sub-01_T1w.nii", ["sub-01_T2w.nii"]⟩) "out" "normal"
    (fun _ => rfl)

/-- Command counting distributes over trace concatenation. -/
theorem runCmdCount_append (a b : List Event) :
    runCmdCount (a ++ b) = runCmdCount a + runCmdCount b := by
  simp [runCmdCount, List.filter_append]

/-- The registration engine issues exactly one external command per secondary
scan, plus the single mask-derivation command. -/
theorem register_runCmdCount (fs : FSOracle) (sd wkd ps : String)
    (os : List String) :
    runCmdCount (register_to_primary_scan fs sd wkd ps os) = 1 + os.length := by
  have key : ∀ (t1m : String) (l : List String),
      runCmdCount ((l.map (register_other sd wkd ps t1m)).flatten) = l.length := by
    intro t1m l
    induction l with
    | nil => simp [runCmdCount]
    | cons o os' ih =>
        simp only [List.map_cons, List.flatten_cons]
        rw [runCmdCount_append, ih]
        simp [register_other, runCmdCount, Nat.add_comm]
  simp only [register_to_primary_scan]
  rw [runCmdCount_append, key]
  simp [preprocess_facemask, runCmdCount]

/-- Claim C7: for each secondary scan handled by the registration engine, its
full path is `subj_dir / <second underscore token> / anat / <name>`, a
per-scan subdirectory is created under the working directory, and one
combined external command is issued consisting of exactly the copy, the
6-degrees-of-freedom rigid registration of the primary onto the secondary,
the nearest-neighbour transform application to the face-mask, and the
masking of the original secondary — with exactly one external command per
secondary scan overall (plus the single mask-derivation command). -/
theorem claim7_secondary_registration_operations (fs : FSOracle)
    (subj_dir afni_workdir primary_scan : String) (others : List String)
    (other : String) (hmem : other ∈ others) :
    let fp := other_full_path subj_dir other
    let opfx := other_pfx_of subj_dir other
    let base := pjoin (pjoin afni_workdir opfx) opfx
    let t1m := pyStr (preprocess_facemask fs
      (pjoin afni_workdir "tmp.05.sh_t2a_thr.nii")).2
    Event.mkdir (pjoin afni_workdir opfx) ∈
      register_to_primary_scan fs subj_dir afni_workdir primary_scan others ∧
    Event.runCmd (joinSep " ; "
      ["cp " ++ fp ++ " " ++ base,
       "flirt -dof 6 -cost mutualinfo -searchcost mutualinfo -in "
         ++ primary_scan ++ " -ref " ++ fp ++ " -omat " ++ (base ++ "_reg.mat")
         ++ " -out " ++ (base ++ "_registered.nii.gz"),
       "flirt -interp nearestneighbour -applyxfm -init " ++ (base ++ "_reg.mat")
         ++ " -in " ++ t1m ++ " -ref " ++ fp
         ++ " -out " ++ (base ++ "_mask.nii.gz"),
       "fslmaths " ++ fp ++ " -mas " ++ (base ++ "_mask.nii.gz") ++ " "
         ++ (base ++ "_defaced.nii.gz")] ++ "\n") ∈
      register_to_primary_scan fs subj_dir afni_workdir primary_scan others ∧
    runCmdCount (register_to_primary_scan fs subj_dir afni_workdir
      primary_scan others) = 1 + others.length := by
  refine ⟨?_, ?_, register_runCmdCount fs _ _ _ _⟩
  · simp only [register_to_primary_scan]
    refine List.mem_append_right _ (List.mem_flatten.mpr
      ⟨register_other subj_dir afni_workdir primary_scan _ other,
       List.mem_map_of_mem _ hmem, ?_⟩)
    simp [register_other]
  · simp only [register_to_primary_scan]
    refine List.mem_append_right _ (List.mem_flatten.mpr
      ⟨register_other subj_dir afni_workdir primary_scan _ other,
       List.mem_map_of_mem _ hmem, ?_⟩)
    simp [register_other, get_intermediate_filenames]

set_option maxRecDepth 200000 in
/-- Witness for claim C7 at one concrete secondary scan. -/
theorem claim7_witness :
    Event.mkdir "wkd/sub-01_ses-1_T2w" ∈
      register_to_primary_scan ⟨fun _ => [], fun _ => [], fun _ => false⟩
        "bids/sub-01" "wkd" "prim.nii" ["sub-01_ses-1_T2w.nii"] ∧
    Event.runCmd
      ("cp bids/sub-01/ses-1/anat/sub-01_ses-1_T2w.nii wkd/sub-01_ses-1_T2w/sub-01_ses-1_T2w"
        ++ " ; flirt -dof 6 -cost mutualinfo -searchcost mutualinfo -in prim.nii"
        ++ " -ref bids/sub-01/ses-1/anat/sub-01_ses-1_T2w.nii"
        ++ " -omat wkd/sub-01_ses-1_T2w/sub-01_ses-1_T2w_reg.mat"
        ++ " -out wkd/sub-01_ses-1_T2w/sub-01_ses-1_T2w_registered.nii.gz"
        ++ " ; flirt -interp nearestneighbour -applyxfm"
        ++ " -init wkd/sub-01_ses-1_T2w/sub-01_ses-1_T2w_reg.mat -in None"
        ++ " -ref bids/sub-01/ses-1/anat/sub-01_ses-1_T2w.nii"
        ++ " -out wkd/sub-01_ses-1_T2w/sub-01_ses-1_T2w_mask.nii.gz"
        ++ " ; fslmaths bids/sub-01/ses-1/anat/sub-01_ses-1_T2w.nii"
        ++ " -mas wkd/sub-01_ses-1_T2w/sub-01_ses-1_T2w_mask.nii.gz"
        ++ " wkd/sub-01_ses-1_T2w/sub-01_ses-1_T2w_defaced.nii.gz\n") ∈
      register_to_primary_scan ⟨fun _ => [], fun _ => [], fun _ => false⟩
        "bids/sub-01" "wkd" "prim.nii" ["sub-01_ses-1_T2w.nii"] ∧
    runCmdCount (register_to_primary_scan ⟨fun _ => [], fun _ => [], fun _ => false⟩
      "bids/sub-01" "wkd" "prim.nii" ["sub-01_ses-1_T2w.nii"]) = 1 + 1 :=
  claim7_secondary_registration_operations
    ⟨fun _ => [], fun _ => [], fun _ => false⟩
    "bids/sub-01" "wkd" "prim.nii" ["sub-01_ses-1_T2w.nii"]
    "sub-01_ses-1_T2w.nii" (by decide)

/-- Claim C8 counterexample: a sibling named `__work_extra` is neither the
working directory itself nor suffixed `QC`/`defacing_pipeline.log`, yet the
code retains it (the retention test is the `__work` name prefix, not identity
with the working directory), so the claim's deletion rule fails on it. -/
theorem claim8_counterexample :
    ("__work_extra" ≠ "__work_refacer.p1.xyz" ∧
     strEnds "__work_extra" "QC" = false ∧
     strEnds "__work_extra" "defacing_pipeline.log" = false) ∧
    "__work_extra" ∉
      to_be_deleted_files ["__work_extra", "notes.txt", "__work_refacer.p1.xyz"] ∧
    (rename_afni_workdir
      ⟨fun _ => [], fun _ => ["__work_extra", "notes.txt", "__work_refacer.p1.xyz"],
       fun _ => false⟩ "anat" "__work_refacer.p1.xyz").1
      = [Event.runCmd "rm -rf anat/notes.txt",
         Event.renamed "anat/__work_refacer.p1.xyz" "anat/workdir_p1"] := by
  decide

/-- Claim C8 (amended): before the rename, exactly the siblings whose names
neither start with `__work` nor end with `QC` or `defacing_pipeline.log` are
deleted, and the working directory (whose name starts with `__work`) is
renamed to `workdir_<second dot-delimited segment>`. -/
theorem claim8_amended_deletion_rule (fs : FSOracle) (parent wname : String)
    (_h : 2 ≤ (splitOnChar '.' wname).length) :
    (rename_afni_workdir fs parent wname).1 =
      [Event.runCmd ("rm -rf " ++ joinSep " "
          ((to_be_deleted_files (fs.listNames parent)).map (pjoin parent))),
       Event.renamed (pjoin parent wname)
         (pjoin parent ("workdir_" ++ (splitOnChar '.' wname).getD 1 ""))] ∧
    (rename_afni_workdir fs parent wname).2 =
      pjoin parent ("workdir_" ++ (splitOnChar '.' wname).getD 1 "") ∧
    ∀ n, n ∈ to_be_deleted_files (fs.listNames parent) ↔
      (n ∈ fs.listNames parent ∧ strStarts n "__work" = false ∧
       strEnds n "QC" = false ∧ strEnds n "defacing_pipeline.log" = false) := by
  refine ⟨rfl, rfl, fun n => ?_⟩
  simp [to_be_deleted_files, keep_sibling, List.mem_filter, and_assoc]

/-- Witness for the amended claim C8 at a concrete directory listing. -/
theorem claim8_amended_witness :
    (rename_afni_workdir
      ⟨fun _ => [], fun _ => ["__work_extra", "notes.txt", "__work_refacer.p1.xyz"],
       fun _ => false⟩ "anat" "__work_refacer.p1.xyz").2 = "anat/workdir_p1" ∧
    ∀ n, n ∈ to_be_deleted_files ["__work_extra", "notes.txt", "__work_refacer.p1.xyz"] ↔
      (n ∈ ["__work_extra", "notes.txt", "__work_refacer.p1.xyz"] ∧
       strStarts n "__work" = false ∧ strEnds n "QC" = false ∧
       strEnds n "defacing_pipeline.log" = false) :=
  ⟨(claim8_amended_deletion_rule
      ⟨fun _ => [], fun _ => ["__work_extra", "notes.txt", "__work_refacer.p1.xyz"],
       fun _ => false⟩ "anat" "__work_refacer.p1.xyz" (by decide)).2.1,
   (claim8_amended_deletion_rule
      ⟨fun _ => [], fun _ => ["__work_extra", "notes.txt", "__work_refacer.p1.xyz"],
       fun _ => false⟩ "anat" "__work_refacer.p1.xyz" (by decide)).2.2⟩

/-- A primary never survives the `s != primary_t1` filter. -/
theorem not_mem_filtered (p : String) (l : List String) :
    p ∉ filtered_others (some p) l := by
  intro hp
  have := (List.mem_filter.mp hp).2
  simp at this

/-- The registration engine's own trace contains no registration call. -/
theorem register_trace_no_invoke (fs : FSOracle) (sd wkd ps : String)
    (os : List String) (w pr : String) (l : List String) :
    Event.registerInvoke w pr l ∉ register_to_primary_scan fs sd wkd ps os := by
  intro hmem
  simp only [register_to_primary_scan, List.mem_append] at hmem
  rcases hmem with hmem | hmem
  · simp [preprocess_facemask] at hmem
  · rw [List.mem_flatten] at hmem
    obtain ⟨l', hl', hm⟩ := hmem
    obtain ⟨o, _, rfl⟩ := List.mem_map.mp hl'
    simp [register_other] at hm

/-- Claim C10: with a set primary, the filter over the mapping's `others`
removes every occurrence of the primary, and consequently every registration
call in the unit's trace carries a secondary list that excludes the
primary. -/
theorem claim10_primary_not_registered_to_itself (fs : FSOracle)
    (subj_input_dir sess_dir : String) (mapLookup : String → UnitMap)
    (output_dir mode : String) (p : String)
    (h : (mapLookup (if sess_dir = "" then "" else baseName sess_dir)).primary_t1
      = some p) :
    p ∉ filtered_others (some p)
      (mapLookup (if sess_dir = "" then "" else baseName sess_dir)).others ∧
    ∀ w pr os, Event.registerInvoke w pr os ∈
        (deface_primary_scan fs subj_input_dir sess_dir mapLookup
          output_dir mode).1 →
      p ∉ os := by
  refine ⟨not_mem_filtered p _, fun w pr os hmem => ?_⟩
  simp only [deface_primary_scan, List.mem_append] at hmem
  rcases hmem with hmem | hmem
  · rw [h] at hmem
    simp only [run_afni_refacer] at hmem
    cases hg : fs.globWorkRefacer (refacer_outdir subj_input_dir
        (if sess_dir = "" then "" else baseName sess_dir) output_dir p) with
    | nil =>
        rw [hg] at hmem
        simp at hmem
    | cons wd ws =>
        rw [hg] at hmem
        simp [rename_afni_workdir] at hmem
        rcases hmem with ⟨_, _, hos⟩ | hF
        · subst hos
          exact not_mem_filtered p _
        · exact (register_trace_no_invoke fs _ _ _ _ w pr os hF).elim
  · simp at hmem

/-- Witness for claim C10 at a unit whose `others` list contains the primary
itself. -/
theorem claim10_witness :
    "p.nii" ∉ filtered_others (some "p.nii") ["p.nii", "sub-01_ses-1_T2w.nii"] ∧
    ∀ w pr os, Event.registerInvoke w pr os ∈
        (deface_primary_scan ⟨fun _ => ["__work_refacer.ab.123"], fun _ => [],
          fun _ => false⟩ "in/sub-01" ""
          (fun _ => ⟨some "p.nii", ["p.nii", "sub-01_ses-1_T2w.nii"]⟩)
          "out" "normal").1 →
      "p.nii" ∉ os :=
  claim10_primary_not_registered_to_itself
    ⟨fun _ => ["__work_refacer.ab.123"], fun _ => [], fun _ => false⟩
    "in/sub-01" "" (fun _ => ⟨some "p.nii", ["p.nii", "sub-01_ses-1_T2w.nii"]⟩)
    "out" "normal" "p.nii" rfl

end DsstDefacing
